import Mathlib

/-!
Verification of the RAFT (Reward-rAnked FineTuning) notebook of this
repository against its specification.

The notebook glues trivial Python control flow around opaque calls into a
deep-learning library.  The embedding below translates that control flow
faithfully and treats every library primitive (forward pass, backward pass,
optimizer step) as an abstract operation:

* reward scores and losses are rational numbers (the code's scalar floats);
* the generative model's parameters, its accumulated gradients and the
  optimizer state are opaque type parameters `M`, `G`, `O`;
* the reward classifier's parameters are an opaque type parameter `RW`,
  paired with the `training` mode flag that `reward_model.train()` sets;
* the global random-number-generator state consumed by dropout layers while
  a model is in training mode is a natural number advanced by each
  training-mode forward call;
* in-place mutation of a model is explicit state passing, and the text
  printed by a loop is returned as a list of values.
-/

namespace RaftSpec

/-- A sequence-classification reward model as the notebook holds it: opaque
parameters `weights` together with the train/eval mode flag.  The first cell
of the notebook calls `reward_model.train()` and no later code calls
`reward_model.eval()`, so the flag stays `true` for the whole RAFT loop. -/
structure RewardModel (RW : Type) where
  weights : RW
  training : Bool
deriving DecidableEq

/-- The opaque library primitives of the reward classifier's forward pass.
`forwardTrain` is the logit produced for one text while the model is in
training mode: dropout layers are active, so the result also depends on the
state of the global random-number generator.  `forwardEval` is the
deterministic logit produced in eval mode. -/
structure RewardOps (RW : Type) where
  forwardTrain : RW → Nat → String → ℚ
  forwardEval : RW → String → ℚ

/-- The batched reward forward pass performed inside `rank_samples`
(`reward_model(**inputs).logits.squeeze()`), one scalar per input text.
`torch.no_grad()` only disables gradient recording; it does not disable
dropout, so in training mode the call consumes the global RNG state
(returned advanced by one draw), while in eval mode the RNG is untouched. -/
def rewardScores {RW : Type} (rops : RewardOps RW) (rm : RewardModel RW)
    (rng : Nat) (samples : List String) : List ℚ × Nat :=
  if rm.training then (samples.map (rops.forwardTrain rm.weights rng), rng + 1)
  else (samples.map (rops.forwardEval rm.weights), rng)

/-- Comparison used to argsort score indices in descending order: index `i`
may precede index `j` when the score at `i` is at least the score at `j`. -/
abbrev rankRel (rs : List ℚ) (i j : Fin rs.length) : Prop :=
  rs.get j ≤ rs.get i

instance (rs : List ℚ) : DecidableRel (rankRel rs) :=
  fun i j => inferInstanceAs (Decidable (rs.get j ≤ rs.get i))

instance (rs : List ℚ) : IsTotal (Fin rs.length) (rankRel rs) :=
  ⟨fun i j => le_total (rs.get j) (rs.get i)⟩

instance (rs : List ℚ) : IsTrans (Fin rs.length) (rankRel rs) :=
  ⟨fun _ _ _ h1 h2 => le_trans h2 h1⟩

/-- `torch.argsort(rewards, descending=True)`: the indices of `rs` arranged
so that the scores read off along them are non-increasing. -/
def argsortDesc (rs : List ℚ) : List Nat :=
  (List.insertionSort (rankRel rs) (List.finRange rs.length)).map Fin.val

/-- The list comprehension `[samples[i] for i in torch.argsort(rewards,
descending=True)]` on the success path: the samples reindexed along the
descending argsort of the call's reward scores. -/
def rankList {RW : Type} (rops : RewardOps RW) (rm : RewardModel RW)
    (rng : Nat) (samples : List String) : List String :=
  (argsortDesc (rewardScores rops rm rng samples).1).map
    (fun i => samples.getD i "")

/-- `rank_samples(samples)`: score all samples with the reward model in one
batched forward call, then return `[samples[i] for i in
torch.argsort(rewards, descending=True)]`.  The logits of the batched
forward have shape `(n, 1)` for `n` input samples and `.squeeze()` drops
every size-1 axis, so for exactly one sample the rewards tensor is
0-dimensional and the comprehension's iteration over `torch.argsort` of it
raises `TypeError`; for any other size the comprehension returns the
argsorted samples.  The forward pass has already run either way, so the
advanced RNG state is returned alongside. -/
def rank_samples {RW : Type} (rops : RewardOps RW) (rm : RewardModel RW)
    (rng : Nat) (samples : List String) :
    Except String (List String) × Nat :=
  (if samples.length = 1 then
      Except.error "TypeError: iteration over a 0-d tensor"
    else Except.ok (rankList rops rm rng samples),
   (rewardScores rops rm rng samples).2)

theorem rewardScores_fst_length {RW : Type} (rops : RewardOps RW)
    (rm : RewardModel RW) (rng : Nat) (samples : List String) :
    (rewardScores rops rm rng samples).1.length = samples.length := by
  unfold rewardScores
  by_cases h : rm.training <;> simp [h]

theorem argsortDesc_perm (rs : List ℚ) :
    (argsortDesc rs).Perm (List.range rs.length) := by
  unfold argsortDesc
  have h := (List.perm_insertionSort (rankRel rs) (List.finRange rs.length)).map Fin.val
  rwa [List.map_coe_finRange] at h

theorem argsortDesc_length (rs : List ℚ) :
    (argsortDesc rs).length = rs.length :=
  (argsortDesc_perm rs).length_eq.trans (List.length_range rs.length)

theorem argsortDesc_sorted (rs : List ℚ) :
    ((argsortDesc rs).map (fun i => rs.getD i 0)).Sorted (fun a b => a ≥ b) := by
  unfold argsortDesc
  rw [List.map_map]
  have hs : List.Sorted (rankRel rs)
      (List.insertionSort (rankRel rs) (List.finRange rs.length)) :=
    List.sorted_insertionSort (rankRel rs) (List.finRange rs.length)
  refine hs.map ?_ ?_
  intro i j hij
  have hi : rs.getD i.val 0 = rs.get i := by
    rw [List.getD_eq_getElem rs 0 i.isLt]
    simp [List.get_eq_getElem]
  have hj : rs.getD j.val 0 = rs.get j := by
    rw [List.getD_eq_getElem rs 0 j.isLt]
    simp [List.get_eq_getElem]
  show rs.getD ((Fin.val ∘ fun x => x) i) 0 ≥ rs.getD ((Fin.val ∘ fun x => x) j) 0
  simpa [hi, hj] using hij

theorem map_getD_range {α : Type} (l : List α) (d : α) :
    (List.range l.length).map (fun i => l.getD i d) = l := by
  apply List.ext_getElem
  · simp
  · intro i h1 h2
    simp only [List.getElem_map, List.getElem_range]
    exact List.getD_eq_getElem l d h2

/-- Claim C1 (amended to lists of at least two samples): `rank_samples`
succeeds and returns a permutation of its input, reindexed along a
permutation of the index range on which the reward scores computed by the
call are non-increasing (samples sorted by reward score, descending).  On
a one-element list the function instead raises `TypeError`, because
`.squeeze()` turns the `(1, 1)` logits into a 0-dim tensor that the list
comprehension cannot iterate. -/
theorem C1_rank_samples_sorted_permutation {RW : Type} (rops : RewardOps RW)
    (rm : RewardModel RW) (rng : Nat) (samples : List String)
    (h2 : 2 ≤ samples.length) :
    ∃ out : List String,
      (rank_samples rops rm rng samples).1 = Except.ok out ∧
      out.Perm samples ∧
      ∃ idxs : List Nat,
        idxs.Perm (List.range samples.length) ∧
        out = idxs.map (fun i => samples.getD i "") ∧
        (idxs.map
          (fun i => (rewardScores rops rm rng samples).1.getD i 0)).Sorted
            (fun a b => a ≥ b) := by
  have hlen : (rewardScores rops rm rng samples).1.length = samples.length :=
    rewardScores_fst_length rops rm rng samples
  have hcond : ¬ samples.length = 1 := by omega
  have hok : (rank_samples rops rm rng samples).1 =
      Except.ok (rankList rops rm rng samples) := by
    show (if samples.length = 1 then
        (Except.error "TypeError: iteration over a 0-d tensor" :
          Except String (List String))
      else Except.ok (rankList rops rm rng samples)) =
      Except.ok (rankList rops rm rng samples)
    rw [if_neg hcond]
  have hout : rankList rops rm rng samples =
      (argsortDesc (rewardScores rops rm rng samples).1).map
        (fun i => samples.getD i "") := rfl
  have hperm : (argsortDesc (rewardScores rops rm rng samples).1).Perm
      (List.range samples.length) := by
    have := argsortDesc_perm (rewardScores rops rm rng samples).1
    rwa [hlen] at this
  refine ⟨rankList rops rm rng samples, hok, ?_, ?_⟩
  · rw [hout]
    have hp := hperm.map (fun i => samples.getD i "")
    rwa [map_getD_range samples ""] at hp
  · exact ⟨argsortDesc (rewardScores rops rm rng samples).1, hperm, hout,
      argsortDesc_sorted (rewardScores rops rm rng samples).1⟩

/-- The notebook's global environment as the RAFT loop sees it: the
generative model's parameters (`gen`), its per-parameter gradient buffers
(`grads`, never zeroed by any code in the loop), the global RNG state, and
the reward classifier. -/
structure RAFTState (M G RW : Type) where
  gen : M
  grads : G
  rng : Nat
  reward : RewardModel RW
deriving DecidableEq

/-- `generate_samples(prompt, num_samples=5)`: a list comprehension over
literal f-strings.  The function executes inside the notebook environment
`env` (which holds the generative model, the reward model and the RNG) but
reads none of it. -/
def generate_samples {M G RW : Type} (env : RAFTState M G RW)
    (prompt : String) (num_samples : Nat := 5) : List String :=
  (List.range num_samples).map (fun i => s!"Generated response {i} for {prompt}")

/-- Claim C2: `generate_samples(p, n)` returns exactly the `n` literal
placeholder strings `Generated response i for p`, `i = 0 .. n-1`; the
result is independent of the notebook environment, i.e. of the generative
model, its weights and the random state. -/
theorem C2_generate_samples_literal {M G RW : Type}
    (env env2 : RAFTState M G RW) (p : String) (n : Nat) :
    generate_samples env p n = generate_samples env2 p n ∧
    (generate_samples env p n).length = n ∧
    ∀ i : Nat, i < n →
      (generate_samples env p n).getD i "" = s!"Generated response {i} for {p}" := by
  refine ⟨rfl, by simp [generate_samples], ?_⟩
  intro i hi
  have hlen : i < (generate_samples env p n).length := by
    simpa [generate_samples] using hi
  rw [List.getD_eq_getElem _ _ hlen]
  simp [generate_samples]

/-- Witness for C2 at the notebook's own prompt, the default sample count
and the concrete index 2. -/
theorem C2_generate_samples_literal_witness :
    generate_samples (RAFTState.mk () () 0 (RewardModel.mk () true))
        "What is artificial intelligence?" 5 =
      generate_samples (RAFTState.mk () () 7 (RewardModel.mk () false))
        "What is artificial intelligence?" 5 ∧
    (generate_samples (RAFTState.mk () () 0 (RewardModel.mk () true))
        "What is artificial intelligence?" 5).length = 5 ∧
    (generate_samples (RAFTState.mk () () 0 (RewardModel.mk () true))
        "What is artificial intelligence?" 5).getD 2 "" =
      "Generated response 2 for What is artificial intelligence?" :=
  ⟨(C2_generate_samples_literal (RAFTState.mk () () 0 (RewardModel.mk () true))
      (RAFTState.mk () () 7 (RewardModel.mk () false))
      "What is artificial intelligence?" 5).1,
    (C2_generate_samples_literal (RAFTState.mk () () 0 (RewardModel.mk () true))
      (RAFTState.mk () () 7 (RewardModel.mk () false))
      "What is artificial intelligence?" 5).2.1,
    (C2_generate_samples_literal (RAFTState.mk () () 0 (RewardModel.mk () true))
      (RAFTState.mk () () 7 (RewardModel.mk () false))
      "What is artificial intelligence?" 5).2.2 2 (by decide)⟩

/-- The opaque library primitives used by `fine_tune_model` on the
generative model: `lossOf` is `model(**inputs, labels=input_ids).loss`;
`backward` is `loss.backward()`, which adds the new gradient into the
existing (never zeroed) gradient buffers; `adamwStep` is
`optimizer.step()`, producing updated parameters and updated optimizer
state from the current gradients; `initAdamW` is
`optim.AdamW(model.parameters(), lr=1e-5)`, the optimizer state freshly
created at every `fine_tune_model` call. -/
structure GenOps (M G O : Type) where
  lossOf : M → String → ℚ
  backward : G → M → String → G
  adamwStep : O → G → M → M × O
  initAdamW : M → O

/-- One pass of the inner `for sample in dataset` body: compute the loss of
`sample` under the current parameters, accumulate its gradient (no
`optimizer.zero_grad()` appears anywhere in the function), then take an
optimizer step.  Returns the new (parameters, gradients, optimizer state)
and the loss value that the Python variable `loss` now holds. -/
def sampleStep {M G O : Type} (ops : GenOps M G O) (s : M × G × O)
    (x : String) : (M × G × O) × ℚ :=
  let l := ops.lossOf s.1 x
  let g := ops.backward s.2.1 s.1 x
  let r := ops.adamwStep s.2.2 g s.1
  ((r.1, g, r.2), l)

/-- One epoch of `fine_tune_model`: fold the sample step over the dataset,
threading the function-local Python variable `loss` (absent until the first
assignment, hence `Option ℚ`). -/
def epochFold {M G O : Type} (ops : GenOps M G O) (ds : List String)
    (p : (M × G × O) × Option ℚ) : (M × G × O) × Option ℚ :=
  ds.foldl (fun acc x =>
    let r := sampleStep ops acc.1 x
    (r.1, some r.2)) p

/-- The state transformer of one epoch, ignoring the `loss` variable. -/
def epochPure {M G O : Type} (ops : GenOps M G O) (ds : List String)
    (s : M × G × O) : M × G × O :=
  ds.foldl (fun a x => (sampleStep ops a x).1) s

/-- One iteration of `for epoch in range(3)`: run the epoch's inner loop,
then execute `print(f"Epoch ... {loss.item()}")`.  If the dataset was empty
the local variable `loss` was never assigned and the print raises
`UnboundLocalError`; otherwise the last sample's loss is appended to the
printed output. -/
def ftEpoch {M G O : Type} (ops : GenOps M G O) (ds : List String)
    (acc : ((M × G × O) × Option ℚ) × List ℚ) :
    Except String (((M × G × O) × Option ℚ) × List ℚ) :=
  let r := epochFold ops ds acc.1
  match r.2 with
  | some l => Except.ok (r, acc.2 ++ [l])
  | none => Except.error "UnboundLocalError: loss"

/-- `fine_tune_model(model, dataset)`: put the model in train mode, create
a fresh AdamW optimizer, then run exactly `range(3)` epochs over the
dataset.  The Python function returns `None`; its effects are the mutated
parameters and gradient buffers (first component) and the three printed
per-epoch losses (second component).  The optimizer state is a local
variable and is dropped on return. -/
def fine_tune_model {M G O : Type} (ops : GenOps M G O) (m : M) (g : G)
    (dataset : List String) : Except String ((M × G) × List ℚ) :=
  match (List.range 3).foldlM (fun acc _ => ftEpoch ops dataset acc)
      (((m, g, ops.initAdamW m), none), []) with
  | Except.ok acc => Except.ok ((acc.1.1.1, acc.1.1.2.1), acc.2)
  | Except.error e => Except.error e

theorem exceptOk_bind {ε α β : Type} (a : α) (f : α → Except ε β) :
    (Except.ok a >>= f) = f a := rfl

theorem exceptError_bind {ε α β : Type} (e : ε) (f : α → Except ε β) :
    ((Except.error e : Except ε α) >>= f) = Except.error e := rfl

theorem epochFold_eq {M G O : Type} (ops : GenOps M G O) (ds : List String)
    (h : ds ≠ []) (p : (M × G × O) × Option ℚ) :
    epochFold ops ds p =
      (epochPure ops ds p.1,
       some (ops.lossOf (epochPure ops ds.dropLast p.1).1 (ds.getLast h))) := by
  induction ds generalizing p with
  | nil => exact absurd rfl h
  | cons x rest ih =>
    cases rest with
    | nil =>
      simp [epochFold, epochPure, sampleStep]
    | cons y tl =>
      have hrest : y :: tl ≠ [] := List.cons_ne_nil y tl
      have hstep : epochFold ops (x :: y :: tl) p =
          epochFold ops (y :: tl)
            ((sampleStep ops p.1 x).1, some (sampleStep ops p.1 x).2) := by
        simp [epochFold]
      rw [hstep, ih hrest]
      have h1 : epochPure ops (x :: y :: tl) p.1 =
          epochPure ops (y :: tl) (sampleStep ops p.1 x).1 := by
        simp [epochPure]
      have h2 : (x :: y :: tl).dropLast = x :: (y :: tl).dropLast :=
        List.dropLast_cons₂
      have h3 : epochPure ops ((x :: y :: tl).dropLast) p.1 =
          epochPure ops ((y :: tl).dropLast) (sampleStep ops p.1 x).1 := by
        rw [h2]
        simp [epochPure]
      have h4 : (x :: y :: tl).getLast h = (y :: tl).getLast hrest :=
        List.getLast_cons hrest
      rw [h1, h3, h4]

/-- Shared computation of `fine_tune_model` on a non-empty dataset: it
always succeeds, the final state is the threefold iterate of the epoch
transformer started from fresh optimizer state, and the three printed
losses are each the loss of the dataset's last element under the parameters
reached just before that element's own optimizer step. -/
theorem fine_tune_model_ok {M G O : Type} (ops : GenOps M G O) (m : M)
    (g : G) (ds : List String) (h : ds ≠ []) :
    fine_tune_model ops m g ds =
      Except.ok
        ((((epochPure ops ds)^[3] (m, g, ops.initAdamW m)).1,
          ((epochPure ops ds)^[3] (m, g, ops.initAdamW m)).2.1),
         [ops.lossOf (epochPure ops ds.dropLast
              ((epochPure ops ds)^[0] (m, g, ops.initAdamW m))).1 (ds.getLast h),
          ops.lossOf (epochPure ops ds.dropLast
              ((epochPure ops ds)^[1] (m, g, ops.initAdamW m))).1 (ds.getLast h),
          ops.lossOf (epochPure ops ds.dropLast
              ((epochPure ops ds)^[2] (m, g, ops.initAdamW m))).1 (ds.getLast h)]) := by
  have hft : ∀ acc : ((M × G × O) × Option ℚ) × List ℚ,
      ftEpoch ops ds acc =
        Except.ok
          ((epochPure ops ds acc.1.1,
            some (ops.lossOf (epochPure ops ds.dropLast acc.1.1).1 (ds.getLast h))),
           acc.2 ++ [ops.lossOf (epochPure ops ds.dropLast acc.1.1).1 (ds.getLast h)]) := by
    intro acc
    unfold ftEpoch
    rw [epochFold_eq ops ds h acc.1]
  unfold fine_tune_model
  rw [show List.range 3 = [0, 1, 2] from rfl]
  simp only [List.foldlM_cons, List.foldlM_nil, hft, exceptOk_bind]
  rfl

/-- Concrete trivial instantiation of the generative-model primitives
(all state is `Unit`, every loss is `0`), used to evaluate the embedding at
concrete inputs. -/
def demoGenOps : GenOps Unit Unit Unit where
  lossOf := fun _ _ => 0
  backward := fun _ _ _ => ()
  adamwStep := fun _ _ _ => ((), ())
  initAdamW := fun _ => ()

/-- Concrete instantiation whose loss is the byte length of the sample, so
different samples have different losses. -/
def demoGenOpsLen : GenOps Unit Unit Unit where
  lossOf := fun _ s => (s.length : ℚ)
  backward := fun _ _ _ => ()
  adamwStep := fun _ _ _ => ((), ())
  initAdamW := fun _ => ()

/-- Counterexample to claim C4 as stated: on the empty dataset,
`fine_tune_model` does not complete its three epochs and return `None` —
the first epoch's `print` reads the never-assigned local variable `loss`
and raises `UnboundLocalError`. -/
theorem C4_empty_dataset_raises :
    fine_tune_model demoGenOps () () [] =
      Except.error "UnboundLocalError: loss" := rfl

/-- Claim C4 (amended to non-empty datasets): for every model and every
non-empty dataset, `fine_tune_model` runs exactly three epochs of the
gradient-descent sample step over the dataset in order, its only outcome
being the mutated parameters and gradients (the threefold iterate of the
epoch transformer, starting from a freshly created optimizer state) plus
the three printed per-epoch losses; no other value and no convergence
signal is returned, and the epoch count never depends on any intermediate
result. -/
theorem C4_fine_tune_three_epochs {M G O : Type} (ops : GenOps M G O)
    (m : M) (g : G) (ds : List String) (h : ds ≠ []) :
    ∃ prints : List ℚ,
      fine_tune_model ops m g ds =
        Except.ok
          ((((epochPure ops ds)^[3] (m, g, ops.initAdamW m)).1,
            ((epochPure ops ds)^[3] (m, g, ops.initAdamW m)).2.1), prints) ∧
      prints.length = 3 :=
  ⟨_, fine_tune_model_ok ops m g ds h, rfl⟩

/-- Witness for C4 (amended) on the two-element dataset `["a", "bb"]`. -/
theorem C4_fine_tune_three_epochs_witness :
    ∃ prints : List ℚ,
      fine_tune_model demoGenOpsLen () () ["a", "bb"] =
        Except.ok
          ((((epochPure demoGenOpsLen ["a", "bb"])^[3] ((), (), ())).1,
            ((epochPure demoGenOpsLen ["a", "bb"])^[3] ((), (), ())).2.1), prints) ∧
      prints.length = 3 :=
  C4_fine_tune_three_epochs demoGenOpsLen () () ["a", "bb"] (by decide)

/-- Claim C10: the loss that `fine_tune_model` reports after each epoch is
the loss of only the last dataset element processed in that epoch — the
loss computed for the final element under the parameters reached just
before that element's optimizer step — not an average or a sum over the
epoch's samples. -/
theorem C10_reported_loss_is_last_sample {M G O : Type} (ops : GenOps M G O)
    (m : M) (g : G) (ds : List String) (h : ds ≠ []) :
    fine_tune_model ops m g ds =
      Except.ok
        ((((epochPure ops ds)^[3] (m, g, ops.initAdamW m)).1,
          ((epochPure ops ds)^[3] (m, g, ops.initAdamW m)).2.1),
         [ops.lossOf (epochPure ops ds.dropLast
              ((epochPure ops ds)^[0] (m, g, ops.initAdamW m))).1 (ds.getLast h),
          ops.lossOf (epochPure ops ds.dropLast
              ((epochPure ops ds)^[1] (m, g, ops.initAdamW m))).1 (ds.getLast h),
          ops.lossOf (epochPure ops ds.dropLast
              ((epochPure ops ds)^[2] (m, g, ops.initAdamW m))).1 (ds.getLast h)]) :=
  fine_tune_model_ok ops m g ds h

/-- Witness for C10 on `["a", "bb"]`: every epoch reports the loss of the
final element `"bb"` (namely `2`), not of `"a"` and not an aggregate. -/
theorem C10_reported_loss_is_last_sample_witness :
    fine_tune_model demoGenOpsLen () () ["a", "bb"] =
      Except.ok
        ((((epochPure demoGenOpsLen ["a", "bb"])^[3] ((), (), ())).1,
          ((epochPure demoGenOpsLen ["a", "bb"])^[3] ((), (), ())).2.1),
         [demoGenOpsLen.lossOf (epochPure demoGenOpsLen (["a", "bb"].dropLast)
              ((epochPure demoGenOpsLen ["a", "bb"])^[0] ((), (), ()))).1
            (["a", "bb"].getLast (List.cons_ne_nil "a" ["bb"])),
          demoGenOpsLen.lossOf (epochPure demoGenOpsLen (["a", "bb"].dropLast)
              ((epochPure demoGenOpsLen ["a", "bb"])^[1] ((), (), ()))).1
            (["a", "bb"].getLast (List.cons_ne_nil "a" ["bb"])),
          demoGenOpsLen.lossOf (epochPure demoGenOpsLen (["a", "bb"].dropLast)
              ((epochPure demoGenOpsLen ["a", "bb"])^[2] ((), (), ()))).1
            (["a", "bb"].getLast (List.cons_ne_nil "a" ["bb"]))]) ∧
    fine_tune_model demoGenOpsLen () () ["a", "bb"] =
      Except.ok ((((), ()), [2, 2, 2])) :=
  ⟨C10_reported_loss_is_last_sample demoGenOpsLen () () ["a", "bb"]
      (List.cons_ne_nil "a" ["bb"]),
    by rfl⟩

/-- The `rank_samples` call as the RAFT loop performs it on the notebook
environment.  The call runs under `torch.no_grad()` and performs no
optimizer step, so no library call inside it writes to any model
parameter or gradient buffer; its only effect on the environment is the
RNG state consumed by the training-mode forward pass. -/
def rank_phase {M G RW : Type} (rops : RewardOps RW) (st : RAFTState M G RW)
    (samples : List String) :
    Except String (List String) × RAFTState M G RW :=
  let r := rank_samples rops st.reward st.rng samples
  (r.1, { st with rng := r.2 })

/-- Claim C9: `rank_samples` never modifies model state — the generative
model's parameters and gradients and the reward model (parameters and mode
flag) are identical before and after the call. -/
theorem C9_rank_phase_preserves_models {M G RW : Type} (rops : RewardOps RW)
    (st : RAFTState M G RW) (samples : List String) :
    (rank_phase rops st samples).2.gen = st.gen ∧
    (rank_phase rops st samples).2.grads = st.grads ∧
    (rank_phase rops st samples).2.reward = st.reward :=
  ⟨rfl, rfl, rfl⟩

/-- One iteration of the RAFT loop body: generate candidate responses for
the fixed prompt, rank them with the reward model, keep the top 3, and
fine-tune the generative model on them (its printed losses are not used by
the driver). -/
def raft_body {M G O RW : Type} (ops : GenOps M G O) (rops : RewardOps RW)
    (st : RAFTState M G RW) : Except String (RAFTState M G RW) :=
  let samples := generate_samples st "What is artificial intelligence?" 5
  let rp := rank_phase rops st samples
  match rp.1 with
  | Except.ok rankedAll =>
      (match fine_tune_model ops st.gen st.grads (rankedAll.take 3) with
        | Except.ok r => Except.ok { rp.2 with gen := r.1.1, grads := r.1.2 }
        | Except.error e => Except.error e)
  | Except.error e => Except.error e

/-- `for iteration in range(5)`: the RAFT iteration driver. -/
def raft_loop {M G O RW : Type} (ops : GenOps M G O) (rops : RewardOps RW)
    (st : RAFTState M G RW) : Except String (RAFTState M G RW) :=
  (List.range 5).foldlM (fun s _ => raft_body ops rops s) st

/-- The total state transformer of one RAFT iteration: the top-3 ranked
candidates are fed to three epochs of fine-tuning, and the ranking's RNG
consumption is recorded. -/
def raft_body_pure {M G O RW : Type} (ops : GenOps M G O)
    (rops : RewardOps RW) (st : RAFTState M G RW) : RAFTState M G RW :=
  let samples := generate_samples st "What is artificial intelligence?" 5
  let rp := rank_phase rops st samples
  let ranked := (rankList rops st.reward st.rng samples).take 3
  let s3 := (epochPure ops ranked)^[3] (st.gen, st.grads, ops.initAdamW st.gen)
  { rp.2 with gen := s3.1, grads := s3.2.1 }

theorem rankList_length {RW : Type} (rops : RewardOps RW)
    (rm : RewardModel RW) (rng : Nat) (samples : List String) :
    (rankList rops rm rng samples).length = samples.length := by
  unfold rankList
  rw [List.length_map, argsortDesc_length, rewardScores_fst_length]

theorem raft_body_ok {M G O RW : Type} (ops : GenOps M G O)
    (rops : RewardOps RW) (st : RAFTState M G RW) :
    raft_body ops rops st = Except.ok (raft_body_pure ops rops st) := by
  have hgen : (generate_samples st "What is artificial intelligence?" 5).length = 5 := by
    simp [generate_samples]
  have hcond : ¬ (generate_samples st "What is artificial intelligence?" 5).length = 1 := by
    rw [hgen]
    omega
  have hstep : raft_body ops rops st =
      (match fine_tune_model ops st.gen st.grads
          ((rankList rops st.reward st.rng
            (generate_samples st "What is artificial intelligence?" 5)).take 3) with
        | Except.ok r => Except.ok { (rank_phase rops st
            (generate_samples st "What is artificial intelligence?" 5)).2 with
            gen := r.1.1, grads := r.1.2 }
        | Except.error e => Except.error e) := by
    have hrk : (rank_phase rops st
        (generate_samples st "What is artificial intelligence?" 5)).1 =
        Except.ok (rankList rops st.reward st.rng
          (generate_samples st "What is artificial intelligence?" 5)) := by
      show (if (generate_samples st "What is artificial intelligence?" 5).length = 1
        then (Except.error "TypeError: iteration over a 0-d tensor" :
          Except String (List String))
        else Except.ok (rankList rops st.reward st.rng
          (generate_samples st "What is artificial intelligence?" 5))) =
        Except.ok (rankList rops st.reward st.rng
          (generate_samples st "What is artificial intelligence?" 5))
      rw [if_neg hcond]
    show (match (rank_phase rops st
        (generate_samples st "What is artificial intelligence?" 5)).1 with
      | Except.ok rankedAll =>
        (match fine_tune_model ops st.gen st.grads (rankedAll.take 3) with
          | Except.ok r => Except.ok { (rank_phase rops st
              (generate_samples st "What is artificial intelligence?" 5)).2 with
              gen := r.1.1, grads := r.1.2 }
          | Except.error e => Except.error e)
      | Except.error e => Except.error e) =
      (match fine_tune_model ops st.gen st.grads
          ((rankList rops st.reward st.rng
            (generate_samples st "What is artificial intelligence?" 5)).take 3) with
        | Except.ok r => Except.ok { (rank_phase rops st
            (generate_samples st "What is artificial intelligence?" 5)).2 with
            gen := r.1.1, grads := r.1.2 }
        | Except.error e => Except.error e)
    rw [hrk]
  have hlen : ((rankList rops st.reward st.rng
      (generate_samples st "What is artificial intelligence?" 5)).take 3).length = 3 := by
    rw [List.length_take, rankList_length, hgen]
    omega
  have hne : (rankList rops st.reward st.rng
      (generate_samples st "What is artificial intelligence?" 5)).take 3 ≠ [] := by
    intro hcon
    rw [hcon] at hlen
    simp at hlen
  rw [hstep, fine_tune_model_ok ops st.gen st.grads _ hne]
  rfl

/-- Claim C3: the RAFT iteration driver executes exactly its fixed count of
five iterations of generate, rank, fine-tune (in that order inside
`raft_body`), fine-tuning on the top-3 ranked candidates each time; it
never fails and never stops early, whatever the intermediate losses and
scores are — the result is always the fivefold iterate of the single
iteration transformer. -/
theorem C3_raft_loop_five_iterations {M G O RW : Type} (ops : GenOps M G O)
    (rops : RewardOps RW) (st : RAFTState M G RW) :
    raft_loop ops rops st =
      Except.ok ((raft_body_pure ops rops)^[5] st) := by
  have key : ∀ (l : List Nat) (x : RAFTState M G RW),
      l.foldlM (fun s _ => raft_body ops rops s) x =
        Except.ok ((raft_body_pure ops rops)^[l.length] x) := by
    intro l
    induction l with
    | nil => intro x; rfl
    | cons a t ih =>
      intro x
      rw [List.foldlM_cons, raft_body_ok ops rops x, exceptOk_bind, ih]
      rw [List.length_cons, Function.iterate_succ_apply]
  have h := key (List.range 5) st
  rwa [List.length_range] at h

/-- Concrete reward-model primitives used to evaluate the embedding: in
training mode the logit is the current RNG state (dropout noise), in eval
mode it is `0`. -/
def demoRewardOps : RewardOps Unit where
  forwardTrain := fun _ rng _ => (rng : ℚ)
  forwardEval := fun _ _ => 0

/-- Counterexample to claim C1 as stated: on a one-element (hence
non-empty) sample list, `rank_samples` does not return a permutation of
its input — the batched logits have shape `(1, 1)`, `.squeeze()` yields a
0-dim tensor, and iterating `torch.argsort` of a 0-dim tensor raises
`TypeError`. -/
theorem C1_singleton_raises :
    (rank_samples demoRewardOps (RewardModel.mk () true) 0
        ["only one sample"]).1 =
      Except.error "TypeError: iteration over a 0-d tensor" := rfl

/-- Witness for C1 (amended) on the concrete two-element input
`["a", "bb"]` with the reward model in training mode, as the notebook
leaves it. -/
theorem C1_rank_samples_sorted_permutation_witness :
    ∃ out : List String,
      (rank_samples demoRewardOps (RewardModel.mk () true) 0 ["a", "bb"]).1 =
        Except.ok out ∧
      out.Perm ["a", "bb"] ∧
      ∃ idxs : List Nat,
        idxs.Perm (List.range (["a", "bb"] : List String).length) ∧
        out = idxs.map (fun i => (["a", "bb"] : List String).getD i "") ∧
        (idxs.map
          (fun i => (rewardScores demoRewardOps (RewardModel.mk () true) 0
            ["a", "bb"]).1.getD i 0)).Sorted (fun a b => a ≥ b) :=
  C1_rank_samples_sorted_permutation demoRewardOps (RewardModel.mk () true) 0
    ["a", "bb"] (by decide)

/-- Claim C6's failing input, evaluated: cell 1 leaves the reward model in
training mode (`reward_model.train()` with no later `eval()`), so dropout
is live inside `rank_samples` even under `torch.no_grad()`.  Scoring the
same sample twice in a row with unchanged weights draws different dropout
noise — here the first call returns score 0, advancing the RNG, and the
second returns score 1 — so the scoring is not a pure function of
(text, weights).  In eval mode the same two calls agree and leave the RNG
untouched. -/
theorem C6_training_mode_scoring_not_pure :
    rewardScores demoRewardOps (RewardModel.mk () true) 0 ["a"] = ([0], 1) ∧
    rewardScores demoRewardOps (RewardModel.mk () true) 1 ["a"] = ([1], 2) ∧
    (rewardScores demoRewardOps (RewardModel.mk () true) 0 ["a"]).1 ≠
      (rewardScores demoRewardOps (RewardModel.mk () true) 1 ["a"]).1 ∧
    (rank_samples demoRewardOps (RewardModel.mk () true) 0 ["a"]).2 = 1 ∧
    (rewardScores demoRewardOps (RewardModel.mk () false) 0 ["a"]).1 =
      (rewardScores demoRewardOps (RewardModel.mk () false) 1 ["a"]).1 := by
  refine ⟨by decide, by decide, by decide, ?_, by decide⟩
  rfl

/-! ### Error propagation (claim C7)

The notebook contains no `try`/`except` anywhere.  To state what happens
when a library call fails (missing files, shape mismatches, out of
memory), the same control flow is embedded once more with every library
primitive allowed to raise: each returns `Except String`, the straight-line
Python code is the bind of the monad, and an uncaught Python exception is
an `Except.error` value. -/

/-- Fallible generative-model primitives: any forward pass, backward pass,
optimizer step or optimizer construction may raise. -/
structure GenOpsF (M G O : Type) where
  lossOf : M → String → Except String ℚ
  backward : G → M → String → Except String G
  adamwStep : O → G → M → Except String (M × O)
  initAdamW : M → Except String O

/-- Fallible batched reward forward pass. -/
structure RewardOpsF (RW : Type) where
  forwardBatch : RewardModel RW → Nat → List String →
    Except String (List ℚ × Nat)

/-- `rank_samples` with a fallible reward forward pass. -/
def rank_samplesF {RW : Type} (rops : RewardOpsF RW) (rm : RewardModel RW)
    (rng : Nat) (samples : List String) : Except String (List String × Nat) :=
  match rops.forwardBatch rm rng samples with
  | Except.ok r =>
      if samples.length = 1 then
        Except.error "TypeError: iteration over a 0-d tensor"
      else
        Except.ok ((argsortDesc r.1).map (fun i => samples.getD i ""), r.2)
  | Except.error e => Except.error e

/-- The inner sample step of `fine_tune_model` with fallible primitives. -/
def sampleStepF {M G O : Type} (ops : GenOpsF M G O) (s : M × G × O)
    (x : String) : Except String ((M × G × O) × ℚ) := do
  let l ← ops.lossOf s.1 x
  let g ← ops.backward s.2.1 s.1 x
  let r ← ops.adamwStep s.2.2 g s.1
  Except.ok ((r.1, g, r.2), l)

/-- `fine_tune_model` with fallible primitives. -/
def fine_tune_modelF {M G O : Type} (ops : GenOpsF M G O) (m : M) (g : G)
    (dataset : List String) : Except String ((M × G) × List ℚ) := do
  let o ← ops.initAdamW m
  let acc ← (List.range 3).foldlM
    (fun (acc : ((M × G × O) × Option ℚ) × List ℚ) _ => do
      let r ← dataset.foldlM
        (fun (p : (M × G × O) × Option ℚ) x => do
          let q ← sampleStepF ops p.1 x
          Except.ok (q.1, some q.2)) acc.1
      match r.2 with
      | some l => Except.ok (r, acc.2 ++ [l])
      | none => Except.error "UnboundLocalError: loss")
    (((m, g, o), none), [])
  Except.ok ((acc.1.1.1, acc.1.1.2.1), acc.2)

/-- One RAFT iteration with fallible primitives: generate, rank, take the
top 3, fine-tune. -/
def raft_bodyF {M G O RW : Type} (ops : GenOpsF M G O) (rops : RewardOpsF RW)
    (st : RAFTState M G RW) : Except String (RAFTState M G RW) := do
  let samples := generate_samples st "What is artificial intelligence?" 5
  let rk ← rank_samplesF rops st.reward st.rng samples
  let ranked := rk.1.take 3
  let r ← fine_tune_modelF ops st.gen st.grads ranked
  Except.ok { st with gen := r.1.1, grads := r.1.2, rng := rk.2 }

/-- The first `k` iterations of the fallible RAFT driver. -/
def raft_iters {M G O RW : Type} (ops : GenOpsF M G O) (rops : RewardOpsF RW)
    (k : Nat) (st : RAFTState M G RW) : Except String (RAFTState M G RW) :=
  (List.range k).foldlM (fun s _ => raft_bodyF ops rops s) st

/-- The fallible RAFT driver, `for iteration in range(5)`. -/
def raft_loopF {M G O RW : Type} (ops : GenOpsF M G O) (rops : RewardOpsF RW)
    (st : RAFTState M G RW) : Except String (RAFTState M G RW) :=
  raft_iters ops rops 5 st

theorem foldlM_const_append {α β : Type} (f : α → Except String α)
    (l1 l2 : List β) (x : α) :
    (l1 ++ l2).foldlM (fun s _ => f s) x =
      (l1.foldlM (fun s _ => f s) x >>= fun y =>
        l2.foldlM (fun s _ => f s) y) := by
  induction l1 generalizing x with
  | nil => rfl
  | cons a t ih =>
    rw [List.cons_append, List.foldlM_cons, List.foldlM_cons]
    cases f x with
    | ok y => rw [exceptOk_bind, exceptOk_bind, ih]
    | error e => simp only [exceptError_bind]

/-- Claim C7: no operation in the RAFT pipeline catches any exception.  If
the first `k` iterations of the fallible driver succeed and the next
iteration's body — generation, scoring/ranking or fine-tuning — raises
`e`, then the whole loop evaluates to exactly that error: the exception
propagates uncaught out of the iteration loop, with no retry and no
recovery path. -/
theorem C7_error_propagates_uncaught {M G O RW : Type} (ops : GenOpsF M G O)
    (rops : RewardOpsF RW) (st sk : RAFTState M G RW) (k : Nat) (e : String)
    (hk : k < 5) (hok : raft_iters ops rops k st = Except.ok sk)
    (herr : raft_bodyF ops rops sk = Except.error e) :
    raft_loopF ops rops st = Except.error e := by
  obtain ⟨m, hm⟩ : ∃ m, 5 = k + (m + 1) := ⟨5 - k - 1, by omega⟩
  unfold raft_loopF raft_iters
  rw [hm, List.range_add, foldlM_const_append]
  unfold raft_iters at hok
  rw [hok, exceptOk_bind, List.range_succ_eq_map, List.map_cons,
    List.foldlM_cons, herr, exceptError_bind]

/-- Fallible reward primitives that always raise an out-of-memory error. -/
def demoRewardOpsOOM : RewardOpsF Unit where
  forwardBatch := fun _ _ _ => Except.error "CUDA out of memory"

/-- Fallible generative primitives that never raise. -/
def demoGenOpsF : GenOpsF Unit Unit Unit where
  lossOf := fun _ _ => Except.ok 0
  backward := fun _ _ _ => Except.ok ()
  adamwStep := fun _ _ _ => Except.ok ((), ())
  initAdamW := fun _ => Except.ok ()

/-- Witness for C7: a scoring failure in the very first iteration makes the
whole driver return that same error. -/
theorem C7_error_propagates_uncaught_witness :
    raft_iters demoGenOpsF demoRewardOpsOOM 0
        (RAFTState.mk () () 0 (RewardModel.mk () true)) =
      Except.ok (RAFTState.mk () () 0 (RewardModel.mk () true)) ∧
    raft_bodyF demoGenOpsF demoRewardOpsOOM
        (RAFTState.mk () () 0 (RewardModel.mk () true)) =
      Except.error "CUDA out of memory" ∧
    raft_loopF demoGenOpsF demoRewardOpsOOM
        (RAFTState.mk () () 0 (RewardModel.mk () true)) =
      Except.error "CUDA out of memory" :=
  ⟨rfl, rfl,
    C7_error_propagates_uncaught demoGenOpsF demoRewardOpsOOM
      (RAFTState.mk () () 0 (RewardModel.mk () true))
      (RAFTState.mk () () 0 (RewardModel.mk () true)) 0 "CUDA out of memory"
      (by decide) rfl rfl⟩

end RaftSpec
